import Mathlib

/-!
Verification of the CRM lead-management backend (`main.py`, `models.py`,
`database.py`) against its natural-language specification.

The Python source is shallowly embedded: pure helpers become Lean
functions on `String` / `List Char` (Python string primitives such as
`strip`, `split`, `replace`, `startswith`, slicing and `in` are
reimplemented over `List Char`, matching Python's codepoint semantics);
the SQLAlchemy store becomes a `List Lead`; network I/O (the website
fetch and the model call) becomes explicit oracle parameters returning
`Except String _`, matching the Python boundary where any exception is
either caught or aborts the request.
-/

namespace CRM

/-- Python `str.startswith(pre)`. -/
def pyStartsWith (s pre : String) : Bool :=
  pre.toList.isPrefixOf s.toList

/-- Python slicing `s[:n]` (by characters). -/
def pyTake (s : String) (n : Nat) : String :=
  String.mk (s.toList.take n)

/-- Python `str.lower()` (ASCII-level embedding). -/
def pyLower (s : String) : String :=
  String.mk (s.toList.map Char.toLower)

/-- Worker for `pyTitle`: the flag records whether the previous
character was alphabetic. -/
def pyTitleGo : Bool → List Char → List Char
  | _, [] => []
  | prevAlpha, c :: cs =>
    (if c.isAlpha then (if prevAlpha then c.toLower else c.toUpper) else c)
      :: pyTitleGo c.isAlpha cs

/-- Python `str.title()` (ASCII-level): upper-case an alphabetic
character following a non-alphabetic one, lower-case other alphabetic
characters. -/
def pyTitle (s : String) : String :=
  String.mk (pyTitleGo false s.toList)

/-- Python `str.strip()` on a character list. -/
def pyStripChars (s : List Char) : List Char :=
  ((s.dropWhile Char.isWhitespace).reverse.dropWhile Char.isWhitespace).reverse

/-- Python `str.strip()`. -/
def pyStrip (s : String) : String :=
  String.mk (pyStripChars s.toList)

/-- Worker for `replaceAll`, structurally recursive on a fuel bound
(the fuel is always at least the input length, and every step consumes
at least one character and one unit of fuel, so the fuel never runs
out). -/
def replaceAllGo (pat rep : List Char) : Nat → List Char → List Char
  | _, [] => []
  | 0, s => s
  | fuel + 1, c :: cs =>
    if pat.isPrefixOf (c :: cs) then
      rep ++ replaceAllGo pat rep fuel (cs.drop (pat.length - 1))
    else
      c :: replaceAllGo pat rep fuel cs

/-- Python `str.replace(pat, rep)`: replace every non-overlapping
occurrence, scanning left to right. The pattern is non-empty in every
use below. -/
def replaceAll (pat rep s : List Char) : List Char :=
  replaceAllGo pat rep s.length s

/-- Worker for `pySplitOn`, structurally recursive on a fuel bound (see
`replaceAllGo`). -/
def pySplitOnGo (sep : List Char) : Nat → List Char → List (List Char)
  | _, [] => [[]]
  | 0, s => [s]
  | fuel + 1, c :: cs =>
    if sep.isPrefixOf (c :: cs) ∧ sep ≠ [] then
      [] :: pySplitOnGo sep fuel (cs.drop (sep.length - 1))
    else
      match pySplitOnGo sep fuel cs with
      | r :: rs => (c :: r) :: rs
      | [] => [[c]]

/-- Python `str.split(sep)` for a non-empty separator: split at every
non-overlapping occurrence, keeping empty pieces. -/
def pySplitOn (sep s : List Char) : List (List Char) :=
  pySplitOnGo sep s.length s

/-- Split at every character satisfying `p`, keeping empty pieces. -/
def splitAtChar (p : Char → Bool) : List Char → List (List Char)
  | [] => [[]]
  | c :: cs =>
    if p c then [] :: splitAtChar p cs
    else
      match splitAtChar p cs with
      | r :: rs => (c :: r) :: rs
      | [] => [[c]]

/-- Join character-list pieces with a separator. -/
def joinWith (sep : List Char) : List (List Char) → List Char
  | [] => []
  | [w] => w
  | w :: ws => w ++ sep ++ joinWith sep ws

/-- Python `' '.join(s.split())`: collapse whitespace runs to single
spaces and drop leading/trailing whitespace. -/
def collapseWs (s : String) : String :=
  String.mk (joinWith [' ']
    ((splitAtChar Char.isWhitespace s.toList).filter (fun w => w ≠ [])))

/-- Python `needle in hay` on strings (substring test). -/
def strContains (hay needle : String) : Bool :=
  decide (needle.toList <:+: hay.toList)

/-- `line.replace(marker, '').strip()` as used on marker lines in
`score_lead`'s response parsing: removes every occurrence of the marker,
then strips surrounding whitespace. -/
def stripMarker (marker line : String) : String :=
  String.mk (pyStripChars (replaceAll marker.toList [] line.toList))

/-- First maximal run of decimal digits in a character list
(`re.findall(r'\d+', s)[0]`), if any. -/
def firstDigitRun : List Char → Option (List Char)
  | [] => none
  | c :: cs =>
    if c.isDigit then some (c :: cs.takeWhile Char.isDigit)
    else firstDigitRun cs

/-- Python `int` on a run of decimal digits. -/
def digitsToNat (ds : List Char) : Nat :=
  ds.foldl (fun n c => 10 * n + (c.toNat - 48)) 0

/-- Inner loop under a `JUSTIFICATION:` line: append each following
line (stripped, space-joined) until a line starting with `NEXT_ACTION:`
is met (exclusive). -/
def collectJust (acc : String) : List String → String
  | [] => acc
  | l :: ls =>
    if pyStartsWith l "NEXT_ACTION:" then acc
    else collectJust (acc ++ " " ++ pyStrip l) ls

/-- Inner loop under a `NEXT_ACTION:` line: append every remaining line
(stripped, space-joined) through the end of the response. -/
def collectNext (acc : String) : List String → String
  | [] => acc
  | l :: ls => collectNext (acc ++ " " ++ pyStrip l) ls

/-- The `for i, line in enumerate(lines)` loop of `score_lead`'s
response parsing, carrying the score / justification / next_action
accumulators (`None`, `""`, `""` initially in the Python). -/
def parseLoop : List String → Option Nat → String → String → Option Nat × String × String
  | [], sc, j, n => (sc, j, n)
  | l :: ls, sc, j, n =>
    if pyStartsWith l "SCORE:" then
      let sc' :=
        match firstDigitRun (stripMarker "SCORE:" l).toList with
        | some ds => some (digitsToNat ds)
        | none => sc
      parseLoop ls sc' j n
    else if pyStartsWith l "JUSTIFICATION:" then
      parseLoop ls sc (collectJust (stripMarker "JUSTIFICATION:" l) ls) n
    else if pyStartsWith l "NEXT_ACTION:" then
      parseLoop ls sc j (collectNext (stripMarker "NEXT_ACTION:" l) ls)
    else parseLoop ls sc j n

/-- Fixed fallback next action used when no `NEXT_ACTION:` text was
parsed. -/
def fallbackNextAction : String :=
  "Review lead and determine outreach strategy"

/-- The lines scanned by the response parsing:
`response_text.strip().split('\n')`. -/
def responseLines (text : String) : List String :=
  (pySplitOn ['\n'] (pyStripChars text.toList)).map String.mk

/-- The response-parsing section of `score_lead` (main.py lines
452-485): split the stripped response into lines, run the marker loop,
apply defaults (50 / first 400 chars of the raw response / fixed
string), clamp the score to [0,100], collapse whitespace and cap the
two text fields at 500 and 300 characters. -/
def parse_response (text : String) : Nat × String × String :=
  let r := parseLoop (responseLines text) none "" ""
  let score := r.1.getD 50
  let justification := if r.2.1 = "" then pyTake text 400 else r.2.1
  let next_action := if r.2.2 = "" then fallbackNextAction else r.2.2
  (max 0 (min 100 score),
   pyTake (collapseWs justification) 500,
   pyTake (collapseWs next_action) 300)

/-! ### Email heuristic analyzer (`analyze_email_domain`) -/

/-- `email.split('@')[1]`: the segment between the first `'@'` and the
next `'@'` (or the end of the string); `none` models the `IndexError`
raised (and caught) when the email contains no `'@'`. -/
def emailDomainAfterAt : List Char → Option (List Char)
  | [] => none
  | c :: cs =>
    if c = '@' then some (cs.takeWhile (fun d => d ≠ '@'))
    else emailDomainAfterAt cs

/-- The fixed generic-provider list of `analyze_email_domain`. -/
def generic_domains : List String :=
  ["gmail.com", "yahoo.com", "hotmail.com", "outlook.com", "aol.com"]

/-- `website.replace('http://','').replace('https://','')
.replace('www.','').split('/')[0].lower()`. -/
def websiteClean (website : String) : String :=
  pyLower (String.mk
    ((pySplitOn ['/']
      (replaceAll "www.".toList []
        (replaceAll "https://".toList []
          (replaceAll "http://".toList [] website.toList)))).headD []))

/-- `analyze_email_domain(email, website)` (main.py lines 126-148): a
pure total function; the bare `except` that returns the invalid-format
message corresponds to the `none` branch of `emailDomainAfterAt`, the
only statement in the `try` block that can raise. -/
def analyze_email_domain (email website : String) : String :=
  if email = "" ∨ email = "nan" then "No email provided"
  else
    match emailDomainAfterAt email.toList with
    | none => "Invalid email format"
    | some dcs =>
      let email_domain := pyLower (String.mk dcs)
      if email_domain ∈ generic_domains then
        "Generic email domain (" ++ email_domain ++ ") - less professional"
      else if website ≠ "" ∧ website ≠ "nan" then
        let website_clean := websiteClean website
        if strContains website_clean email_domain || strContains email_domain website_clean then
          "Professional email - domain matches website (" ++ email_domain ++ ")"
        else
          "Email domain (" ++ email_domain ++ ") doesn\x27t match website"
      else
        "Professional email domain (" ++ email_domain ++ ")"

/-! ### Website summarizer (`fetch_website_content`)

The HTTP GET and the BeautifulSoup parse are the I/O boundary: they are
modelled by an oracle `String → Except String PageData` taking the
normalized URL to either the parsed page data or the message of the
exception raised (network error, timeout, non-2xx status via
`raise_for_status`, parse error). Everything after the parse is
embedded from the source. -/

/-- The data the code extracts from the parsed HTML before any
truncation: page title, meta description, the per-heading key-section
texts (each already capped at 500 characters at append time in the
source loop, kept here as the appended list), and the raw page text
before whitespace normalization. -/
structure PageData where
  title : String
  meta_description : String
  key_sections : List String
  raw_text : String
deriving DecidableEq

/-- The two non-absent shapes of a website summary: the success dict
and the error dict of `fetch_website_content`. -/
inductive WebsiteSummary where
  | success (title meta_description key_sections full_text_sample : String)
      (has_content : Bool) (url_analyzed : String)
  | failure (error url_analyzed : String)
deriving DecidableEq

/-- URL normalization: prepend `https://` when no scheme is present. -/
def normalizeUrl (url : String) : String :=
  if pyStartsWith url "http://" || pyStartsWith url "https://" then url
  else "https://" ++ url

/-- The whitespace normalization applied to the page text: split into
lines, strip each, split each line at double spaces, strip the chunks,
join the non-empty chunks with single spaces. -/
def condenseText (t : String) : String :=
  String.mk (joinWith [' ']
    ((((pySplitOn ['\n'] t.toList).map pyStripChars).flatMap
        (fun l => (pySplitOn [' ', ' '] l).map pyStripChars)).filter
      (fun c => c ≠ [])))

/-- `fetch_website_content(url)` (main.py lines 66-123). Empty or
`"nan"` input returns `none` (no website); otherwise the URL is
normalized and the fetch attempted; any exception becomes the failure
shape carrying the exception text and the normalized URL; success
builds the truncated summary dict. -/
def fetch_website_content (url : String)
    (oracle : String → Except String PageData) : Option WebsiteSummary :=
  if url = "" ∨ url = "nan" then none
  else
    match oracle (normalizeUrl url) with
    | .error e =>
      some (.failure ("Could not fetch website: " ++ e) (normalizeUrl url))
    | .ok p =>
      some (.success (pyTake p.title 200) (pyTake p.meta_description 300)
        (pyTake (String.mk (joinWith [' '] ((p.key_sections.map
          (fun s => (pyTake s 500))).map String.toList))) 1000)
        (pyTake (condenseText p.raw_text) 1500)
        (decide (100 < (condenseText p.raw_text).toList.length))
        (normalizeUrl url))

/-- `website_analysis is not None and 'error' not in website_analysis`. -/
def isSuccessSummary : Option WebsiteSummary → Bool
  | some (.success _ _ _ _ _ _) => true
  | _ => false

/-! ### Data model and store (`models.py`, endpoint handlers) -/

/-- The `Lead` row of `models.py`: free-text columns plus the three
nullable AI fields. -/
structure Lead where
  id : Nat
  company_name : String
  industry : String
  location : String
  contact_name : String
  contact_email : String
  contact_phone : String
  revenue : String
  employees : String
  website : String
  notes : String
  ai_score : Option Nat
  ai_justification : Option String
  ai_next_action : Option String
deriving DecidableEq

/-- The columns of a CSV row that `upload_csv` actually uses, each as
the `str(...)` of the cell (so a blank cell arrives as `"nan"`). -/
structure CsvRow where
  company_name : String
  location : String
  industry : String
  website : String
  contact_email : String
  notes : String
deriving DecidableEq

/-- `clean_value`: `'' if str(val) == 'nan' else str(val)`. -/
def clean_value (v : String) : String :=
  if v = "nan" then "" else v

/-- Contact-name derivation of `upload_csv`: when the email is present,
contains `'@'` and is not `"nan"`, dot-to-space and title-case the
local part; otherwise empty. -/
def contactNameFromEmail (email : String) : String :=
  if email ≠ "" ∧ email.toList.contains '@' ∧ email ≠ "nan" then
    pyTitle (String.mk (replaceAll ['.'] [' ']
      (email.toList.takeWhile (fun c => c ≠ '@'))))
  else ""

/-- One `Lead(...)` construction in the `upload_csv` row loop: the used
columns cleaned, phone/revenue/employees empty, AI fields unset. -/
def mkLead (id : Nat) (r : CsvRow) : Lead where
  id := id
  company_name := clean_value r.company_name
  industry := clean_value r.industry
  location := clean_value r.location
  contact_name := contactNameFromEmail r.contact_email
  contact_email := clean_value r.contact_email
  contact_phone := ""
  revenue := ""
  employees := ""
  website := clean_value r.website
  notes := clean_value r.notes
  ai_score := none
  ai_justification := none
  ai_next_action := none

/-- The store effect of `POST /upload`: one lead appended per CSV row,
with auto-increment ids starting at `startId`. -/
def upload_csv_rows (store : List Lead) (startId : Nat) (rows : List CsvRow) : List Lead :=
  store ++ rows.enum.map (fun p => mkLead (startId + p.1) p.2)

/-- `db.query(Lead).filter(Lead.id == lead_id).first()`. -/
def findLead (store : List Lead) (id : Nat) : Option Lead :=
  store.find? (fun l => l.id == id)

/-- SQL NULL semantics of `Lead.ai_score >= min_score`: a lead with no
score never satisfies the comparison. -/
def leadMinScoreOk (m : Int) (l : Lead) : Bool :=
  match l.ai_score with
  | some s => decide (m ≤ (s : Int))
  | none => false

/-- `GET /leads` (main.py lines 239-257): each filter is applied only
when its parameter is truthy in Python (`if industry:` /
`if location:` / `if min_score:`), so a `None`, an empty string and a
zero `min_score` all leave the corresponding filter off. -/
def get_leads (store : List Lead) (industry location : Option String)
    (min_score : Option Int) : List Lead :=
  let q1 := match industry with
    | some s => if s = "" then store else store.filter (fun l => l.industry == s)
    | none => store
  let q2 := match location with
    | some s => if s = "" then q1 else q1.filter (fun l => strContains l.location s)
    | none => q1
  match min_score with
  | some m => if m = 0 then q2 else q2.filter (leadMinScoreOk m)
  | none => q2

/-- Store effect of `DELETE /leads/{id}`: the row with the matching
primary key is removed; a missing id is a 404 leaving the store
unchanged. -/
def delete_lead_store (store : List Lead) (id : Nat) : List Lead :=
  match findLead store id with
  | none => store
  | some _ => store.filter (fun l => l.id ≠ id)

/-- `DELETE /clear-all` (main.py lines 297-307): count the rows, delete
them all, report the count. -/
def clear_all_store (store : List Lead) : List Lead × Nat :=
  ([], store.length)

/-! ### Scoring pipeline (`POST /leads/{id}/score`) -/

/-- The fixed scoring rubric and required response format appended to
every prompt. -/
def scoringRubric : String :=
  "\n\n=== SCORING CRITERIA ===\n\nScore from 0-100 based on these criteria:\n\n**Website Quality (0-30 points):**\n- 30: Excellent professional site with detailed services, case studies, team info\n- 20: Good professional site with clear services\n- 10: Basic site with limited info\n- 5: Website exists but poor quality or inaccessible\n- 0: No website\n\n**Contact Legitimacy (0-25 points):**\n- 25: Professional email matching website domain + contact name\n- 15: Professional email matching domain\n- 10: Professional email (not generic)\n- 5: Generic email (gmail, yahoo)\n- 0: No valid email\n\n**Industry Fit (0-20 points):**\n- 20: Clearly consulting company (evident from website/notes)\n- 10: Likely consulting but not strongly evident\n- 0: Not a consulting company\n\n**Company Legitimacy (0-15 points):**\n- Based on: location, website quality, email professionalism\n- 15: All indicators positive\n- 10: Most indicators positive\n- 5: Mixed signals\n- 0: Red flags\n\n**Information Completeness (0-10 points):**\n- 10: Complete info (name, email, website, location)\n- 5: Most info present\n- 0: Very limited info\n\n**Respond in this EXACT format:**\n\nSCORE: [number 0-100]\nJUSTIFICATION: [2-3 sentences explaining score based on actual website content and analysis. BE SPECIFIC.]\nNEXT_ACTION: [one specific actionable next step]\n\nExample good justification: \"Score of 85 because website shows established consulting firm with case studies in manufacturing sector. Professional email domain matches website. Clear service offerings in strategy consulting with 15+ years experience stated.\"\n\nNow analyze this lead:"

/-- The website-analysis section of the prompt, one branch per
`WebsiteSummary` shape. -/
def websiteSection : Option WebsiteSummary → String
  | some (.success title meta keys sample hasContent url) =>
    "\n✓ Website Successfully Analyzed: " ++ url ++
    "\n\nPage Title: " ++ title ++
    "\nMeta Description: " ++ meta ++
    "\n\nKey Content:\n" ++ keys ++
    "\n\nWebsite Content Sample:\n" ++ sample ++
    "\n\nStatus: Active and accessible with " ++
    (if hasContent then "professional" else "limited") ++ " content\n"
  | some (.failure err _) =>
    "\n✗ Website Analysis FAILED\nError: " ++ err ++
    "\nRED FLAG: Website may be down, blocked, or non-existent.\n"
  | none =>
    "\n✗ NO WEBSITE PROVIDED\nRED FLAG: Professional consulting companies should have websites.\n"

/-- The deterministic prompt of `score_lead` (main.py lines 348-436):
lead fields, the email analysis, the website-analysis section, the
fixed rubric. -/
def build_prompt (lead : Lead) (email_analysis : String)
    (ws : Option WebsiteSummary) : String :=
  "You are an expert sales consultant analyzing leads for a consulting services company.\n\n=== LEAD BASIC INFORMATION ===\nCompany: " ++
  lead.company_name ++ "\nIndustry: " ++ lead.industry ++
  "\nLocation: " ++ lead.location ++ "\nContact: " ++ lead.contact_name ++
  "\nEmail: " ++ lead.contact_email ++ "\nWebsite: " ++ lead.website ++
  "\n\n=== EMAIL ANALYSIS ===\n" ++ email_analysis ++
  "\n\n=== WEBSITE ANALYSIS ===\n" ++ websiteSection ws ++ scoringRubric

/-- The JSON body returned by a successful `POST /leads/{id}/score`. -/
structure ScoreResp where
  lead_id : Nat
  score : Nat
  justification : String
  next_action : String
  website_analyzed : Bool
deriving DecidableEq

/-- The single terminal commit of `score_lead`: the three AI fields of
the lead with the given primary key are written together; nothing else
changes. -/
def commitScore (store : List Lead) (id score : Nat)
    (justification next_action : String) : List Lead :=
  store.map (fun l =>
    if l.id = id then
      { l with ai_score := some score,
               ai_justification := some justification,
               ai_next_action := some next_action }
    else l)

/-- `POST /leads/{id}/score` (main.py lines 310-508) as a transition on
the store. The API key is `none` when unset (`os.getenv`); Python also
treats an empty key as missing (`if not api_key`). `fetchO` is the
website-fetch oracle (see `fetch_website_content`); `modelO` maps the
prompt to the model's response text, or to the exception text when the
API call fails (including an empty `message.content`). The pair holds
the resulting store and either the response body or the HTTP error
detail; every failure path leaves the store untouched and the single
success path commits all three AI fields at once. -/
def score_lead (store : List Lead) (lead_id : Nat) (api_key : Option String)
    (fetchO : String → Except String PageData)
    (modelO : String → Except String String) :
    List Lead × Except String ScoreResp :=
  match findLead store lead_id with
  | none => (store, .error "Lead not found")
  | some lead =>
    match api_key with
    | none => (store, .error "ANTHROPIC_API_KEY not configured")
    | some k =>
      if k = "" then (store, .error "ANTHROPIC_API_KEY not configured")
      else
        match modelO (build_prompt lead
            (analyze_email_domain lead.contact_email lead.website)
            (fetch_website_content lead.website fetchO)) with
        | .error e => (store, .error ("Error scoring lead: " ++ e))
        | .ok response_text =>
          (commitScore store lead_id (parse_response response_text).1
            (parse_response response_text).2.1 (parse_response response_text).2.2,
           .ok ⟨lead_id, (parse_response response_text).1,
             (parse_response response_text).2.1, (parse_response response_text).2.2,
             isSuccessSummary (fetch_website_content lead.website fetchO)⟩)

/-! ### Concrete sample data used in witnesses and counterexamples -/

/-- A representative stored lead with no AI fields set. -/
def sampleLead : Lead :=
  ⟨1, "Acme", "Consulting", "New York", "Jane Doe", "jane@acme.com",
   "", "", "", "acme.com", "", none, none, none⟩

/-- `sampleLead` with a chosen id and AI score. -/
def scoredLead (id sc : Nat) : Lead :=
  { sampleLead with id := id, ai_score := some sc }

/-- A lead with a non-empty industry, used against the empty-string
industry filter. -/
def techLead : Lead :=
  { sampleLead with industry := "Tech" }

end CRM

namespace CRM

/-! ### Lemmas about the marker-scanning loop -/

/-- A non-empty prefix determines the head of the list. -/
theorem isPrefixOf_head {c : Char} {rest l : List Char}
    (h : (c :: rest).isPrefixOf l = true) : l.head? = some c := by
  cases l with
  | nil => simp [List.isPrefixOf] at h
  | cons a as =>
    simp only [List.isPrefixOf, Bool.and_eq_true, beq_iff_eq] at h
    simp [h.1]

/-- A string starting with a non-empty marker has the marker's first
character as its own first character. -/
theorem pyStartsWith_head {l p : String} {c : Char} {cs : List Char}
    (hp : p.toList = c :: cs) (h : pyStartsWith l p = true) :
    l.toList.head? = some c := by
  unfold pyStartsWith at h
  rw [hp] at h
  exact isPrefixOf_head h

/-- Two markers with different first characters cannot both head the
same line. -/
theorem pyStartsWith_false_of_head {l p : String} {c c' : Char} {cs : List Char}
    (hp : p.toList = c :: cs) (hh : l.toList.head? = some c') (hne : c ≠ c') :
    pyStartsWith l p = false := by
  cases hq : pyStartsWith l p
  · rfl
  · have h2 := pyStartsWith_head hp hq
    rw [hh] at h2
    exact absurd (Option.some.inj h2).symm hne

theorem just_not_score {l : String} (h : pyStartsWith l "JUSTIFICATION:" = true) :
    pyStartsWith l "SCORE:" = false :=
  pyStartsWith_false_of_head rfl (pyStartsWith_head rfl h) (by decide)

theorem next_not_score {l : String} (h : pyStartsWith l "NEXT_ACTION:" = true) :
    pyStartsWith l "SCORE:" = false :=
  pyStartsWith_false_of_head rfl (pyStartsWith_head rfl h) (by decide)

theorem next_not_just {l : String} (h : pyStartsWith l "NEXT_ACTION:" = true) :
    pyStartsWith l "JUSTIFICATION:" = false :=
  pyStartsWith_false_of_head rfl (pyStartsWith_head rfl h) (by decide)

/-- Equation: a `SCORE:` line updates only the score accumulator. -/
theorem parseLoop_cons_score {l : String} (h : pyStartsWith l "SCORE:" = true)
    (ls : List String) (sc : Option Nat) (j n : String) :
    parseLoop (l :: ls) sc j n =
      parseLoop ls
        (match firstDigitRun (stripMarker "SCORE:" l).toList with
         | some ds => some (digitsToNat ds)
         | none => sc) j n := by
  simp [parseLoop, h]

/-- Equation: a `JUSTIFICATION:` line restarts the justification
accumulator. -/
theorem parseLoop_cons_just {l : String}
    (h1 : pyStartsWith l "SCORE:" = false)
    (h2 : pyStartsWith l "JUSTIFICATION:" = true)
    (ls : List String) (sc : Option Nat) (j n : String) :
    parseLoop (l :: ls) sc j n =
      parseLoop ls sc (collectJust (stripMarker "JUSTIFICATION:" l) ls) n := by
  simp [parseLoop, h1, h2]

/-- Equation: a `NEXT_ACTION:` line restarts the next-action
accumulator. -/
theorem parseLoop_cons_next {l : String}
    (h1 : pyStartsWith l "SCORE:" = false)
    (h2 : pyStartsWith l "JUSTIFICATION:" = false)
    (h3 : pyStartsWith l "NEXT_ACTION:" = true)
    (ls : List String) (sc : Option Nat) (j n : String) :
    parseLoop (l :: ls) sc j n =
      parseLoop ls sc j (collectNext (stripMarker "NEXT_ACTION:" l) ls) := by
  simp [parseLoop, h1, h2, h3]

/-- Equation: a line with no marker changes nothing. -/
theorem parseLoop_cons_other {l : String}
    (h1 : pyStartsWith l "SCORE:" = false)
    (h2 : pyStartsWith l "JUSTIFICATION:" = false)
    (h3 : pyStartsWith l "NEXT_ACTION:" = false)
    (ls : List String) (sc : Option Nat) (j n : String) :
    parseLoop (l :: ls) sc j n = parseLoop ls sc j n := by
  simp [parseLoop, h1, h2, h3]

/-- When no line starts with `JUSTIFICATION:`, the loop leaves the
justification accumulator untouched. -/
theorem parseLoop_just_const :
    ∀ (ls : List String) (sc : Option Nat) (j n : String),
      (∀ l ∈ ls, pyStartsWith l "JUSTIFICATION:" = false) →
      (parseLoop ls sc j n).2.1 = j := by
  intro ls
  induction ls with
  | nil => intro sc j n _; rfl
  | cons l ls ih =>
    intro sc j n h
    have hl := h l (List.mem_cons_self l ls)
    have hrest := fun x hx => h x (List.mem_cons_of_mem l hx)
    cases hs : pyStartsWith l "SCORE:" with
    | true => rw [parseLoop_cons_score hs]; exact ih _ _ _ hrest
    | false =>
      cases hn : pyStartsWith l "NEXT_ACTION:" with
      | true => rw [parseLoop_cons_next hs hl hn]; exact ih _ _ _ hrest
      | false => rw [parseLoop_cons_other hs hl hn]; exact ih _ _ _ hrest

/-- When no line starts with `NEXT_ACTION:`, the loop leaves the
next-action accumulator untouched. -/
theorem parseLoop_next_const :
    ∀ (ls : List String) (sc : Option Nat) (j n : String),
      (∀ l ∈ ls, pyStartsWith l "NEXT_ACTION:" = false) →
      (parseLoop ls sc j n).2.2 = n := by
  intro ls
  induction ls with
  | nil => intro sc j n _; rfl
  | cons l ls ih =>
    intro sc j n h
    have hl := h l (List.mem_cons_self l ls)
    have hrest := fun x hx => h x (List.mem_cons_of_mem l hx)
    cases hs : pyStartsWith l "SCORE:" with
    | true => rw [parseLoop_cons_score hs]; exact ih _ _ _ hrest
    | false =>
      cases hj : pyStartsWith l "JUSTIFICATION:" with
      | true => rw [parseLoop_cons_just hs hj]; exact ih _ _ _ hrest
      | false => rw [parseLoop_cons_other hs hj hl]; exact ih _ _ _ hrest

/-- When no line starts with any of the three markers, the loop returns
its accumulators unchanged. -/
theorem parseLoop_no_markers :
    ∀ (ls : List String) (sc : Option Nat) (j n : String),
      (∀ l ∈ ls, pyStartsWith l "SCORE:" = false ∧
        pyStartsWith l "JUSTIFICATION:" = false ∧
        pyStartsWith l "NEXT_ACTION:" = false) →
      parseLoop ls sc j n = (sc, j, n) := by
  intro ls
  induction ls with
  | nil => intro sc j n _; rfl
  | cons l ls ih =>
    intro sc j n h
    have hl := h l (List.mem_cons_self l ls)
    have hrest := fun x hx => h x (List.mem_cons_of_mem l hx)
    rw [parseLoop_cons_other hl.1 hl.2.1 hl.2.2]
    exact ih _ _ _ hrest

/-- The justification produced by the loop is determined by the last
line starting with `JUSTIFICATION:`: the marker-removed, stripped
remainder of that line extended by the following lines up to the first
`NEXT_ACTION:` line. -/
theorem parseLoop_last_just :
    ∀ (pre : List String) (l : String) (post : List String)
      (sc : Option Nat) (j n : String),
      pyStartsWith l "JUSTIFICATION:" = true →
      (∀ x ∈ post, pyStartsWith x "JUSTIFICATION:" = false) →
      (parseLoop (pre ++ l :: post) sc j n).2.1 =
        collectJust (stripMarker "JUSTIFICATION:" l) post := by
  intro pre
  induction pre with
  | nil =>
    intro l post sc j n hl hpost
    rw [List.nil_append, parseLoop_cons_just (just_not_score hl) hl]
    exact parseLoop_just_const post _ _ _ hpost
  | cons p pre ih =>
    intro l post sc j n hl hpost
    rw [List.cons_append]
    cases h1 : pyStartsWith p "SCORE:" with
    | true => rw [parseLoop_cons_score h1]; exact ih l post _ j n hl hpost
    | false =>
      cases h2 : pyStartsWith p "JUSTIFICATION:" with
      | true => rw [parseLoop_cons_just h1 h2]; exact ih l post sc _ n hl hpost
      | false =>
        cases h3 : pyStartsWith p "NEXT_ACTION:" with
        | true => rw [parseLoop_cons_next h1 h2 h3]; exact ih l post sc j _ hl hpost
        | false => rw [parseLoop_cons_other h1 h2 h3]; exact ih l post sc j n hl hpost

/-- The next action produced by the loop is determined by the last line
starting with `NEXT_ACTION:`: the marker-removed, stripped remainder of
that line extended by every remaining line. -/
theorem parseLoop_last_next :
    ∀ (pre : List String) (l : String) (post : List String)
      (sc : Option Nat) (j n : String),
      pyStartsWith l "NEXT_ACTION:" = true →
      (∀ x ∈ post, pyStartsWith x "NEXT_ACTION:" = false) →
      (parseLoop (pre ++ l :: post) sc j n).2.2 =
        collectNext (stripMarker "NEXT_ACTION:" l) post := by
  intro pre
  induction pre with
  | nil =>
    intro l post sc j n hl hpost
    rw [List.nil_append, parseLoop_cons_next (next_not_score hl) (next_not_just hl) hl]
    exact parseLoop_next_const post _ _ _ hpost
  | cons p pre ih =>
    intro l post sc j n hl hpost
    rw [List.cons_append]
    cases h1 : pyStartsWith p "SCORE:" with
    | true => rw [parseLoop_cons_score h1]; exact ih l post _ j n hl hpost
    | false =>
      cases h2 : pyStartsWith p "JUSTIFICATION:" with
      | true => rw [parseLoop_cons_just h1 h2]; exact ih l post sc _ n hl hpost
      | false =>
        cases h3 : pyStartsWith p "NEXT_ACTION:" with
        | true => rw [parseLoop_cons_next h1 h2 h3]; exact ih l post sc j _ hl hpost
        | false => rw [parseLoop_cons_other h1 h2 h3]; exact ih l post sc j n hl hpost

/-! ### Lemmas about the post-processing and the pipeline -/

/-- The clamp `max(0, min(100, score))` bounds every parsed score. -/
theorem parse_response_score_le (text : String) : (parse_response text).1 ≤ 100 := by
  have h : (parse_response text).1 =
      max 0 (min 100 ((parseLoop (responseLines text) none "" "").1.getD 50)) := rfl
  rw [h]
  exact max_le (Nat.zero_le _) (min_le_left _ _)

/-- Full case analysis of the scoring endpoint: every failing path
returns the store unchanged; the single success path commits the three
clamped parse results at once. -/
theorem score_lead_spec (store : List Lead) (id : Nat) (key : Option String)
    (fo : String → Except String PageData) (mo : String → Except String String) :
    (∀ e, (score_lead store id key fo mo).2 = .error e →
        (score_lead store id key fo mo).1 = store) ∧
    (∀ r, (score_lead store id key fo mo).2 = .ok r →
        r.score ≤ 100 ∧
        (score_lead store id key fo mo).1 =
          commitScore store id r.score r.justification r.next_action) := by
  unfold score_lead
  cases hf : findLead store id with
  | none => exact ⟨fun e _ => rfl, fun r hr => by simp at hr⟩
  | some lead =>
    cases key with
    | none => exact ⟨fun e _ => rfl, fun r hr => by simp at hr⟩
    | some k =>
      by_cases hk : k = ""
      · subst hk
        exact ⟨fun e _ => rfl, fun r hr => by simp at hr⟩
      · simp only [if_neg hk]
        cases hm : mo (build_prompt lead
            (analyze_email_domain lead.contact_email lead.website)
            (fetch_website_content lead.website fo)) with
        | error e => exact ⟨fun e' _ => rfl, fun r hr => by simp at hr⟩
        | ok response_text =>
          refine ⟨fun e he => by simp at he, fun r hr => ?_⟩
          simp only at hr
          cases Except.ok.inj hr
          exact ⟨parse_response_score_le response_text, rfl⟩

/-! ### Lemmas about the email analyzer and the list endpoints -/

/-- A string with no `'@'` has no domain part: `split('@')[1]` raises. -/
theorem emailDomainAfterAt_eq_none {l : List Char} (h : ∀ c ∈ l, c ≠ '@') :
    emailDomainAfterAt l = none := by
  induction l with
  | nil => rfl
  | cons c cs ih =>
    rw [emailDomainAfterAt, if_neg (h c (List.mem_cons_self c cs))]
    exact ih fun x hx => h x (List.mem_cons_of_mem c hx)

/-- A successful domain extraction implies the email contains `'@'`. -/
theorem emailDomainAfterAt_mem {l d : List Char}
    (h : emailDomainAfterAt l = some d) : '@' ∈ l := by
  induction l with
  | nil => simp [emailDomainAfterAt] at h
  | cons c cs ih =>
    by_cases hc : c = '@'
    · rw [hc]; exact List.mem_cons_self _ _
    · rw [emailDomainAfterAt, if_neg hc] at h
      exact List.mem_cons_of_mem _ (ih h)

/-- The empty needle is a substring of everything (Python `'' in s`). -/
theorem strContains_empty (s : String) : strContains s "" = true := by
  simp only [strContains, decide_eq_true_eq]
  exact ⟨[], s.toList, by simp⟩

/-- The SQL comparison succeeds exactly on leads with a present score
at least the bound. -/
theorem leadMinScoreOk_iff (m : Int) (l : Lead) :
    leadMinScoreOk m l = true ↔ ∃ sc, l.ai_score = some sc ∧ m ≤ (sc : Int) := by
  cases h : l.ai_score with
  | none => simp [leadMinScoreOk, h]
  | some s => simp [leadMinScoreOk, h]

/-- Membership through the industry filter stage of `get_leads`. -/
theorem mem_industry_stage (store : List Lead) (i : Option String) (l : Lead) :
    (l ∈ match i with
      | some s => if s = "" then store else store.filter (fun x => x.industry == s)
      | none => store) ↔
      l ∈ store ∧ (∀ s, i = some s → s ≠ "" → l.industry = s) := by
  cases i with
  | none => simp
  | some s =>
    by_cases hs : s = ""
    · subst hs; simp
    · simp [hs, List.mem_filter]

/-- Membership through the location filter stage of `get_leads`. -/
theorem mem_location_stage (q : List Lead) (loc : Option String) (l : Lead) :
    (l ∈ match loc with
      | some s => if s = "" then q else q.filter (fun x => strContains x.location s)
      | none => q) ↔
      l ∈ q ∧ (∀ s, loc = some s → s ≠ "" → strContains l.location s = true) := by
  cases loc with
  | none => simp
  | some s =>
    by_cases hs : s = ""
    · subst hs; simp
    · simp [hs, List.mem_filter]

/-- Membership through the min-score filter stage of `get_leads`. -/
theorem mem_minscore_stage (q : List Lead) (m : Option Int) (l : Lead) :
    (l ∈ match m with
      | some v => if v = 0 then q else q.filter (leadMinScoreOk v)
      | none => q) ↔
      l ∈ q ∧ (∀ v, m = some v → v ≠ 0 →
        ∃ sc, l.ai_score = some sc ∧ v ≤ (sc : Int)) := by
  cases m with
  | none => simp
  | some v =>
    by_cases hv : v = 0
    · subst hv; simp
    · simp [hv, List.mem_filter, leadMinScoreOk_iff]

/-! ### Claim theorems -/

/-- C1: for every raw model-response text, the score produced by the
response parser satisfies `0 ≤ score ≤ 100`; and whenever the scoring
endpoint succeeds, the score it returns and persists to the lead is
that same clamped value, hence also in range, for every input text
including adversarial ones. -/
theorem C1_score_range :
    (∀ text : String,
      0 ≤ (parse_response text).1 ∧ (parse_response text).1 ≤ 100) ∧
    (∀ (store : List Lead) (id : Nat) (key : Option String)
       (fo : String → Except String PageData) (mo : String → Except String String)
       (r : ScoreResp),
      (score_lead store id key fo mo).2 = .ok r →
      r.score ≤ 100 ∧
      (score_lead store id key fo mo).1 =
        commitScore store id r.score r.justification r.next_action) :=
  ⟨fun text => ⟨Nat.zero_le _, parse_response_score_le text⟩,
   fun store id key fo mo r h => (score_lead_spec store id key fo mo).2 r h⟩

/-- C1 witness: an adversarial response announcing score 250 is clamped
to 100 and committed as such. -/
theorem C1_score_range_witness :
    (score_lead [sampleLead] 1 (some "k")
        (fun _ => .error "timeout")
        (fun _ => .ok "SCORE: 250\nJUSTIFICATION: ok\nNEXT_ACTION: call")).2 =
      .ok ⟨1, 100, "ok", "call", false⟩ ∧
    (100 : Nat) ≤ 100 ∧
    (score_lead [sampleLead] 1 (some "k")
        (fun _ => .error "timeout")
        (fun _ => .ok "SCORE: 250\nJUSTIFICATION: ok\nNEXT_ACTION: call")).1 =
      commitScore [sampleLead] 1 100 "ok" "call" :=
  ⟨rfl, C1_score_range.2 [sampleLead] 1 (some "k")
    (fun _ => .error "timeout")
    (fun _ => .ok "SCORE: 250\nJUSTIFICATION: ok\nNEXT_ACTION: call")
    ⟨1, 100, "ok", "call", false⟩ rfl⟩

/-- C2: the scoring operation is atomic on the store: every failure
path (missing lead, missing or empty API key, model-call exception)
returns the store entirely unchanged — no partial write of `ai_score`,
`ai_justification` or `ai_next_action`; the single success path updates
the store exactly by the one commit writing all three AI fields
together. -/
theorem C2_scoring_atomic :
    ∀ (store : List Lead) (id : Nat) (key : Option String)
      (fo : String → Except String PageData) (mo : String → Except String String),
      (∀ e, (score_lead store id key fo mo).2 = .error e →
          (score_lead store id key fo mo).1 = store) ∧
      (∀ r, (score_lead store id key fo mo).2 = .ok r →
          (score_lead store id key fo mo).1 =
            commitScore store id r.score r.justification r.next_action) :=
  fun store id key fo mo =>
    ⟨(score_lead_spec store id key fo mo).1,
     fun r h => ((score_lead_spec store id key fo mo).2 r h).2⟩

/-- C2 witness: a failing model call leaves the concrete store
untouched. -/
theorem C2_scoring_atomic_witness :
    (score_lead [sampleLead] 1 (some "k")
        (fun _ => .error "timeout") (fun _ => .error "api down")).1 =
      [sampleLead] :=
  (C2_scoring_atomic [sampleLead] 1 (some "k")
      (fun _ => .error "timeout") (fun _ => .error "api down")).1
    "Error scoring lead: api down" rfl

/-- C3: when no line scanned by the parser (the stripped response text
split on newlines) starts with `SCORE:`, `JUSTIFICATION:` or
`NEXT_ACTION:`, the parser returns score 50, justification = the first
400 characters of the raw response then whitespace-collapsed (and
capped at 500), and the fixed fallback next action; and each default
also applies individually whenever the scanning loop yields no score,
an empty justification, or an empty next action. -/
theorem C3_parser_defaults :
    ∀ text : String,
      ((∀ l ∈ responseLines text,
          pyStartsWith l "SCORE:" = false ∧
          pyStartsWith l "JUSTIFICATION:" = false ∧
          pyStartsWith l "NEXT_ACTION:" = false) →
        parse_response text =
          (50, pyTake (collapseWs (pyTake text 400)) 500, fallbackNextAction)) ∧
      ((parseLoop (responseLines text) none "" "").1 = none →
        (parse_response text).1 = 50) ∧
      ((parseLoop (responseLines text) none "" "").2.1 = "" →
        (parse_response text).2.1 = pyTake (collapseWs (pyTake text 400)) 500) ∧
      ((parseLoop (responseLines text) none "" "").2.2 = "" →
        (parse_response text).2.2 = fallbackNextAction) := by
  intro text
  refine ⟨?_, ?_, ?_, ?_⟩
  · intro h
    unfold parse_response
    rw [parseLoop_no_markers _ _ _ _ h]
    exact rfl
  · intro h
    have hd : (parse_response text).1 =
        max 0 (min 100 ((parseLoop (responseLines text) none "" "").1.getD 50)) := rfl
    rw [hd, h]
    exact rfl
  · intro h
    have hd : (parse_response text).2.1 =
        pyTake (collapseWs
          (if (parseLoop (responseLines text) none "" "").2.1 = "" then pyTake text 400
           else (parseLoop (responseLines text) none "" "").2.1)) 500 := rfl
    rw [hd, h]
    exact rfl
  · intro h
    have hd : (parse_response text).2.2 =
        pyTake (collapseWs
          (if (parseLoop (responseLines text) none "" "").2.2 = "" then fallbackNextAction
           else (parseLoop (responseLines text) none "" "").2.2)) 300 := rfl
    rw [hd, h]
    exact rfl

/-- C3 witness: a marker-free response takes all three defaults. -/
theorem C3_parser_defaults_witness :
    parse_response "The lead looks promising overall" =
      (50, pyTake (collapseWs (pyTake "The lead looks promising overall" 400)) 500,
       fallbackNextAction) :=
  (C3_parser_defaults "The lead looks promising overall").1 (by decide)

/-- C4 counterexample: the parser removes EVERY occurrence of the
marker in the marker line (Python `line.replace`), not only the leading
prefix, so on `JUSTIFICATION: a JUSTIFICATION: b` the justification is
"a b" and not the claimed prefix-stripped remainder
"a JUSTIFICATION: b". -/
theorem C4_counterexample :
    (parse_response "JUSTIFICATION: a JUSTIFICATION: b").2.1 = "a b" ∧
    "a b" ≠ "a JUSTIFICATION: b" :=
  ⟨rfl, by decide⟩

/-- C4 (amended): in the scanning loop, the LAST line starting with
`JUSTIFICATION:` determines the justification — the line with every
occurrence of the marker removed and stripped, extended by each
subsequent stripped line space-joined, up to but not including the
first later line starting with `NEXT_ACTION:`; and the LAST line
starting with `NEXT_ACTION:` determines the next action — the same
remainder extended by every remaining stripped line through the end of
the response, even unrelated trailing text. -/
theorem C4_marker_absorption :
    ∀ (pre post : List String) (l : String),
      (pyStartsWith l "JUSTIFICATION:" = true →
        (∀ x ∈ post, pyStartsWith x "JUSTIFICATION:" = false) →
        (parseLoop (pre ++ l :: post) none "" "").2.1 =
          collectJust (stripMarker "JUSTIFICATION:" l) post) ∧
      (pyStartsWith l "NEXT_ACTION:" = true →
        (∀ x ∈ post, pyStartsWith x "NEXT_ACTION:" = false) →
        (parseLoop (pre ++ l :: post) none "" "").2.2 =
          collectNext (stripMarker "NEXT_ACTION:" l) post) :=
  fun pre post l =>
    ⟨fun hl hpost => parseLoop_last_just pre l post none "" "" hl hpost,
     fun hl hpost => parseLoop_last_next pre l post none "" "" hl hpost⟩

/-- C4 witness: a justification line absorbs the following line and
stops at the `NEXT_ACTION:` line. -/
theorem C4_marker_absorption_witness :
    (parseLoop ["intro", "JUSTIFICATION: solid lead", "more detail",
        "NEXT_ACTION: call now", "today"] none "" "").2.1 =
      collectJust (stripMarker "JUSTIFICATION:" "JUSTIFICATION: solid lead")
        ["more detail", "NEXT_ACTION: call now", "today"] :=
  (C4_marker_absorption ["intro"]
      ["more detail", "NEXT_ACTION: call now", "today"]
      "JUSTIFICATION: solid lead").1 (by decide) (by decide)

/-- C5: the website summarizer returns the absence value `none` on the
inputs `""` and `"nan"` — never the failure shape; and for every other
input, any exception raised by the fetch or the parse is captured as
the failure value carrying a human-readable message and the normalized
URL that was attempted: being a total function of the fetch outcome, it
never raises past its boundary. -/
theorem C5_summarizer_boundary :
    (∀ o : String → Except String PageData,
      fetch_website_content "" o = none ∧ fetch_website_content "nan" o = none) ∧
    (∀ (url : String) (o : String → Except String PageData) (e : String),
      url ≠ "" → url ≠ "nan" → o (normalizeUrl url) = .error e →
      fetch_website_content url o =
        some (.failure ("Could not fetch website: " ++ e) (normalizeUrl url))) := by
  constructor
  · intro o
    exact ⟨rfl, rfl⟩
  · intro url o e h1 h2 ho
    unfold fetch_website_content
    rw [if_neg (by simp [h1, h2]), ho]

/-- C5 witness: a timed-out fetch of `acme.com` produces the failure
value with the normalized URL. -/
theorem C5_summarizer_boundary_witness :
    fetch_website_content "acme.com" (fun _ => .error "timeout") =
      some (.failure "Could not fetch website: timeout" "https://acme.com") :=
  C5_summarizer_boundary.2 "acme.com" (fun _ => .error "timeout") "timeout"
    (by decide) (by decide) rfl

/-- C6 counterexample: the placeholder email `"nan"` contains no `'@'`,
yet the analyzer answers "No email provided" — not the invalid-format
message the claim demands for every `'@'`-free input. -/
theorem C6_counterexample :
    analyze_email_domain "nan" "https://acme.com" = "No email provided" ∧
    "No email provided" ≠ "Invalid email format" :=
  ⟨rfl, by decide⟩

/-- C6 (amended): the analyzer is a pure total function with
`analyze("user@gmail.com", w)` = the generic-domain message for every
website, `analyze("user@acme.com", "https://www.acme.com/x")` = the
domain-match message, `analyze("", w)` = "No email provided", and the
invalid-format message for every `'@'`-free email OTHER than the
empty string and the placeholder `"nan"` (those two take the no-email
branch first). -/
theorem C6_email_analyzer :
    (∀ w, analyze_email_domain "user@gmail.com" w =
      "Generic email domain (gmail.com) - less professional") ∧
    analyze_email_domain "user@acme.com" "https://www.acme.com/x" =
      "Professional email - domain matches website (acme.com)" ∧
    (∀ w, analyze_email_domain "" w = "No email provided") ∧
    (∀ e w, e ≠ "" → e ≠ "nan" → (∀ c ∈ e.toList, c ≠ '@') →
      analyze_email_domain e w = "Invalid email format") := by
  refine ⟨fun w => rfl, rfl, fun w => rfl, ?_⟩
  intro e w h1 h2 h3
  unfold analyze_email_domain
  rw [if_neg (by simp [h1, h2]), emailDomainAfterAt_eq_none h3]

/-- C6 witness: a plain `'@'`-free string gets the invalid-format
message. -/
theorem C6_email_analyzer_witness :
    analyze_email_domain "not-an-email" "https://acme.com" =
      "Invalid email format" :=
  C6_email_analyzer.2.2.2 "not-an-email" "https://acme.com"
    (by decide) (by decide) (by decide)

/-- C7 counterexample: with the industry parameter present but empty,
the code skips the filter (Python truthiness `if industry:`) and
returns a lead whose industry is "Tech" ≠ "", contradicting the claim
that exactly the leads with `industry = ""` are returned. -/
theorem C7_counterexample :
    get_leads [techLead] (some "") none none = [techLead] ∧
    techLead.industry ≠ "" :=
  ⟨rfl, by decide⟩

/-- C7 (amended): `GET /leads` returns exactly the stored leads passing
every TRUTHY filter: when a non-empty industry is given, those with
equal industry; when a non-empty location is given, those whose
location contains it; when a nonzero min_score is given, those with a
present `ai_score ≥ min_score` (inclusive); a `None`, empty-string or
zero parameter leaves its filter off. -/
theorem C7_leads_filter :
    ∀ (store : List Lead) (industry location : Option String)
      (min_score : Option Int) (l : Lead),
      l ∈ get_leads store industry location min_score ↔
        l ∈ store
        ∧ (∀ s, industry = some s → s ≠ "" → l.industry = s)
        ∧ (∀ s, location = some s → s ≠ "" → strContains l.location s = true)
        ∧ (∀ v, min_score = some v → v ≠ 0 →
            ∃ sc, l.ai_score = some sc ∧ v ≤ (sc : Int)) := by
  intro store industry location min_score l
  simp only [get_leads]
  rw [mem_minscore_stage, mem_location_stage, mem_industry_stage]
  tauto

/-- C7 witness: among leads scored 10, 60 and 90, `min_score = 50`
admits the lead scored 60. -/
theorem C7_leads_filter_witness :
    scoredLead 2 60 ∈
      get_leads [scoredLead 1 10, scoredLead 2 60, scoredLead 3 90]
        none none (some 50) :=
  (C7_leads_filter [scoredLead 1 10, scoredLead 2 60, scoredLead 3 90]
      none none (some 50) (scoredLead 2 60)).mpr
    ⟨by decide, fun s h => Option.noConfusion h, fun s h => Option.noConfusion h,
     fun v hv _ => by
      obtain rfl : v = 50 := (Option.some.inj hv).symm
      exact ⟨60, rfl, by decide⟩⟩

/-- C8: the three AI fields are written only by the scoring operation:
CSV ingestion only appends leads with all three unset, deletion and
clear-all never alter a surviving lead, and the scoring operation
leaves every field of every lead unchanged except the three AI fields
of the target lead. -/
theorem C8_ai_fields_frame :
    (∀ (store : List Lead) (startId : Nat) (rows : List CsvRow) (l : Lead),
      l ∈ upload_csv_rows store startId rows →
      l ∈ store ∨
        (l.ai_score = none ∧ l.ai_justification = none ∧ l.ai_next_action = none)) ∧
    (∀ (store : List Lead) (id : Nat) (l : Lead),
      l ∈ delete_lead_store store id → l ∈ store) ∧
    (∀ store : List Lead, (clear_all_store store).1 = []) ∧
    (∀ (store : List Lead) (id : Nat) (key : Option String)
       (fo : String → Except String PageData) (mo : String → Except String String)
       (lr : Lead), lr ∈ (score_lead store id key fo mo).1 →
      ∃ l ∈ store, lr.id = l.id ∧ lr.company_name = l.company_name ∧
        lr.industry = l.industry ∧ lr.location = l.location ∧
        lr.contact_name = l.contact_name ∧ lr.contact_email = l.contact_email ∧
        lr.contact_phone = l.contact_phone ∧ lr.revenue = l.revenue ∧
        lr.employees = l.employees ∧ lr.website = l.website ∧
        lr.notes = l.notes ∧ (l.id ≠ id → lr = l)) := by
  refine ⟨?_, ?_, fun _ => rfl, ?_⟩
  · intro store startId rows l hm
    rcases List.mem_append.1 hm with h | h
    · exact Or.inl h
    · right
      rcases List.mem_map.1 h with ⟨p, _, rfl⟩
      exact ⟨rfl, rfl, rfl⟩
  · intro store id l h
    unfold delete_lead_store at h
    cases hf : findLead store id <;> rw [hf] at h
    · exact h
    · exact (List.mem_filter.1 h).1
  · intro store id key fo mo lr hmem
    cases hs : (score_lead store id key fo mo).2 with
    | error e =>
      rw [(score_lead_spec store id key fo mo).1 e hs] at hmem
      exact ⟨lr, hmem, rfl, rfl, rfl, rfl, rfl, rfl, rfl, rfl, rfl, rfl, rfl,
        fun _ => rfl⟩
    | ok r =>
      rw [((score_lead_spec store id key fo mo).2 r hs).2] at hmem
      rcases List.mem_map.1 hmem with ⟨l, hl, hfl⟩
      by_cases hid : l.id = id
      · rw [if_pos hid] at hfl
        exact ⟨l, hl, by rw [← hfl], by rw [← hfl], by rw [← hfl], by rw [← hfl],
          by rw [← hfl], by rw [← hfl], by rw [← hfl], by rw [← hfl],
          by rw [← hfl], by rw [← hfl], by rw [← hfl], fun hne => absurd hid hne⟩
      · rw [if_neg hid] at hfl
        subst hfl
        exact ⟨l, hl, rfl, rfl, rfl, rfl, rfl, rfl, rfl, rfl, rfl, rfl, rfl,
          fun _ => rfl⟩

/-- C8 witness: deleting a missing id leaves the sample lead in the
store. -/
theorem C8_ai_fields_frame_witness :
    sampleLead ∈ [sampleLead] :=
  C8_ai_fields_frame.2.1 [sampleLead] 2 sampleLead (by decide)

/-- C9: clear-all is idempotent: from any starting store it succeeds,
leaves the store empty, and a second call reports 0 leads deleted. -/
theorem C9_clear_all_idempotent :
    ∀ store : List Lead,
      (clear_all_store store).1 = [] ∧
      (clear_all_store (clear_all_store store).1).1 = [] ∧
      (clear_all_store (clear_all_store store).1).2 = 0 :=
  fun _ => ⟨rfl, rfl, rfl⟩

/-- C10: an email whose segment between the first `'@'` and the next
`'@'` (or the end) is empty — such as `"user@"` — yields, for every
non-empty website other than `"nan"`, the domain-matches-website
message with an empty domain (the empty string is a substring of every
cleaned website), never the invalid-format or doesn't-match message. -/
theorem C10_empty_domain_matches :
    ∀ email website : String,
      emailDomainAfterAt email.toList = some [] →
      website ≠ "" → website ≠ "nan" →
      analyze_email_domain email website =
        "Professional email - domain matches website ()" := by
  intro email website hdom hw1 hw2
  have hat : '@' ∈ email.toList := emailDomainAfterAt_mem hdom
  have he1 : email ≠ "" := by rintro rfl; exact absurd hat (by decide)
  have he2 : email ≠ "nan" := by rintro rfl; exact absurd hat (by decide)
  unfold analyze_email_domain
  rw [if_neg (by simp [he1, he2]), hdom]
  simp only [show pyLower (String.mk []) = "" from rfl]
  rw [if_neg (by decide : ¬ ("" ∈ generic_domains)), if_pos ⟨hw1, hw2⟩,
    strContains_empty, Bool.true_or]
  exact rfl

/-- C10 witness: `"user@"` against `"https://acme.com"` gets the
empty-domain match message. -/
theorem C10_empty_domain_matches_witness :
    analyze_email_domain "user@" "https://acme.com" =
      "Professional email - domain matches website ()" :=
  C10_empty_domain_matches "user@" "https://acme.com"
    (by decide) (by decide) (by decide)

end CRM

/-- Sanity: a well-formed response parses as expected. -/
theorem parse_response_example :
    CRM.parse_response "SCORE: 85\nJUSTIFICATION: Good lead.\nNEXT_ACTION: Call them." =
      (85, "Good lead.", "Call them.") := by decide
